import Mathlib

/-!
Verification of the Canadian Dental Care Plan apply-wizard core.

This file shallowly embeds the wizard state model, the navigation-guard
loaders, the review-page actions and the subscription confirmation-code
mock of the repository, and proves or refutes the frozen claims about them.
-/

namespace CDCP

/-! Section: Data model (spec §3 and the `ApplyState` shape used by the routes) -/

/-- Discriminator for the application flow variant. -/
inductive TypeOfApplication
  | adult
  | adultChild
  | child
  | delegate
deriving DecidableEq, Repr

/-- Terminal submission record: `{ confirmationCode, submittedOn }`. -/
structure SubmissionInfo where
  confirmationCode : String
  submittedOn : String
deriving DecidableEq, Repr

/-- Payload of the applicant-information step. -/
structure ApplicantInformationState where
  firstName : String
  lastName : String
  maritalStatus : String
  socialInsuranceNumber : String
deriving DecidableEq, Repr

/-- Payload of the partner-information step. -/
structure PartnerInformationState where
  firstName : String
  lastName : String
  dateOfBirth : String
  socialInsuranceNumber : String
  confirm : Bool
deriving DecidableEq, Repr

/-- Payload of the contact-information step, mirroring the zod schema in
`apply/$id/child/contact-information.tsx`. -/
structure ContactInformationState where
  phoneNumber : Option String
  phoneNumberAlt : Option String
  email : Option String
  confirmEmail : Option String
  mailingAddress : String
  mailingApartment : Option String
  mailingCountry : String
  mailingProvince : Option String
  mailingCity : String
  mailingPostalCode : Option String
  copyMailingAddress : Bool
  homeAddress : Option String
  homeApartment : Option String
  homeCountry : Option String
  homeProvince : Option String
  homeCity : Option String
  homePostalCode : Option String
deriving DecidableEq, Repr

/-- Payload of the communication-preference step. -/
structure CommunicationPreferencesState where
  preferredLanguage : String
  preferredMethod : String
  email : Option String
  confirmEmail : Option String
deriving DecidableEq, Repr

/-- Payload of the federal/provincial/territorial dental-benefits step. -/
structure DentalBenefitsState where
  hasFederalBenefits : Bool
  federalSocialProgram : Option String
  hasProvincialTerritorialBenefits : Bool
  provincialTerritorialSocialProgram : Option String
  province : Option String
deriving DecidableEq, Repr

/-- The persisted wizard state for one in-progress application (spec §3,
and the fields read by the route files). -/
structure ApplyState where
  id : String
  editMode : Bool
  typeOfApplication : Option TypeOfApplication
  taxFiling2023 : Option Bool
  dateOfBirth : Option String
  applicantInformation : Option ApplicantInformationState
  partnerInformation : Option PartnerInformationState
  contactInformation : Option ContactInformationState
  communicationPreferences : Option CommunicationPreferencesState
  dentalInsurance : Option Bool
  dentalBenefits : Option DentalBenefitsState
  submissionInfo : Option SubmissionInfo
deriving DecidableEq, Repr

/-- A partial wizard-state update, as passed to `saveApplyState` by the
step actions (the TypeScript `Partial` of the state record; absent keys
are `none`). -/
structure ApplyStateUpdate where
  editMode : Option Bool := none
  typeOfApplication : Option TypeOfApplication := none
  taxFiling2023 : Option Bool := none
  dateOfBirth : Option String := none
  applicantInformation : Option ApplicantInformationState := none
  partnerInformation : Option PartnerInformationState := none
  contactInformation : Option ContactInformationState := none
  communicationPreferences : Option CommunicationPreferencesState := none
  dentalInsurance : Option Bool := none
  dentalBenefits : Option DentalBenefitsState := none
  submissionInfo : Option SubmissionInfo := none
deriving DecidableEq, Repr

/-- Key present in an update overrides the stored value; absent key keeps it. -/
def mergeField {α : Type} : Option α → Option α → Option α
  | some v, _ => some v
  | none, old => old

/-- Modelled from the spec: `saveApplyState` of
`app/route-helpers/apply-route-helpers.server.ts` is not under `src/`
(only its callers are).  Spec §4.3: `save(sessionId, partial)` merges the
partial into the existing fields, replacing each submitted step's entry
wholly and never removing previously-set fields. `id` is immutable. -/
def saveApplyState (s : ApplyState) (u : ApplyStateUpdate) : ApplyState where
  id := s.id
  editMode := u.editMode.getD s.editMode
  typeOfApplication := mergeField u.typeOfApplication s.typeOfApplication
  taxFiling2023 := mergeField u.taxFiling2023 s.taxFiling2023
  dateOfBirth := mergeField u.dateOfBirth s.dateOfBirth
  applicantInformation := mergeField u.applicantInformation s.applicantInformation
  partnerInformation := mergeField u.partnerInformation s.partnerInformation
  contactInformation := mergeField u.contactInformation s.contactInformation
  communicationPreferences := mergeField u.communicationPreferences s.communicationPreferences
  dentalInsurance := mergeField u.dentalInsurance s.dentalInsurance
  dentalBenefits := mergeField u.dentalBenefits s.dentalBenefits
  submissionInfo := mergeField u.submissionInfo s.submissionInfo

/-- Modelled from the spec: `clearApplyState` of
`app/route-helpers/apply-route-helpers.server.ts` is not under `src/`.
Spec §4.3: `clear(sessionId)` removes all wizard state for the session. -/
def clearApplyState (_s : Option ApplyState) : Option ApplyState := none

/-! Section: Routes and path resolution -/

/-- The route identifiers referenced by the embedded code. -/
inductive RouteId
  | typeApplication
  | applicationDelegate
  | termsAndConditions
  | adultChildConfirmation
  | adultChildTaxFiling
  | adultChildFileTaxes
  | adultChildDateOfBirth
  | adultConfirmation
  | adultFederalProvincialTerritorialBenefits
  | childCommunicationPreference
  | childReviewAdultInformation
  | childReviewChildInformation
  | unableToProcessRequest
deriving DecidableEq, Repr

/-- `getPathById`: the URL path of each route, with the language and
session-id segments elided (they play no role in the guards). -/
def getPathById : RouteId → String
  | .typeApplication => "/apply/type-application"
  | .applicationDelegate => "/apply/application-delegate"
  | .termsAndConditions => "/apply/terms-and-conditions"
  | .adultChildConfirmation => "/apply/adult-child/confirmation"
  | .adultChildTaxFiling => "/apply/adult-child/tax-filing"
  | .adultChildFileTaxes => "/apply/adult-child/file-taxes"
  | .adultChildDateOfBirth => "/apply/adult-child/date-of-birth"
  | .adultConfirmation => "/apply/adult/confirmation"
  | .adultFederalProvincialTerritorialBenefits => "/apply/adult/federal-provincial-territorial-benefits"
  | .childCommunicationPreference => "/apply/child/communication-preference"
  | .childReviewAdultInformation => "/apply/child/review-adult-information"
  | .childReviewChildInformation => "/apply/child/review-child-information"
  | .unableToProcessRequest => "/unable-to-process-request"

/-- JavaScript `pathname.endsWith(url)`. -/
def strEndsWith (s suffixStr : String) : Bool :=
  suffixStr.data.isSuffixOf s.data

/-! Section: Navigation guard of the adult-child flow
(`app/route-helpers/apply-adult-child-route-helpers.server.ts`) -/

/-- `loadApplyAdultChildState`: loads the state and throws redirects
(`Except.error`) exactly where the source does.  Note the source only
*logs* when an unsubmitted session requests the confirmation page: the
`throw redirect(termsAndConditionsRouteUrl)` is commented out behind a
TODO, so that branch falls through and returns the state. -/
def loadApplyAdultChildState (s : ApplyState) (pathname : String) : Except RouteId ApplyState :=
  if s.typeOfApplication ≠ some .adultChild then
    .error .typeApplication
  else if s.submissionInfo.isSome && !(strEndsWith pathname (getPathById .adultChildConfirmation)) then
    .error .adultChildConfirmation
  else
    .ok s

/-- `validateApplyAdultChildStateForReview`: returns the redirect target
thrown for the earliest missing prerequisite, or `none` when no check
fires.  The checks for `applicantInformation`, `partnerInformation`,
`personalInformation`, `communicationPreferences`, `dentalInsurance` and
`dentalBenefits` are commented out in the source behind a TODO and are
therefore absent here. -/
def validateApplyAdultChildStateForReview (s : ApplyState) : Option RouteId :=
  if s.typeOfApplication = none then
    some .typeApplication
  else if s.typeOfApplication = some .delegate then
    some .applicationDelegate
  else if s.typeOfApplication ≠ some .adultChild then
    some .typeApplication
  else if s.taxFiling2023 = none then
    some .adultChildTaxFiling
  else if s.taxFiling2023 = some false then
    some .adultChildFileTaxes
  else if s.dateOfBirth = none then
    some .adultChildDateOfBirth
  else
    none

/-! Section: Review-page and step actions -/

/-- `_action` values of the review forms (`enum FormAction`). -/
inductive FormAction
  | back
  | submit
deriving DecidableEq, Repr

/-- `z.nativeEnum(FormAction).parse(formData.get('_action'))`, with parse
failure as `none` (the zod parse throws). -/
def parseFormAction (s : String) : Option FormAction :=
  if s = "back" then some .back
  else if s = "submit" then some .submit
  else none

/-- Observable outcome of a route action. -/
inductive ActionResult
  | badRequest (status : Nat)
  | invalidFormAction
  | validationErrors
  | serviceFailure (message : String)
  | redirect (target : RouteId)
deriving DecidableEq, Repr

/-- Outcome of the adult review-information action: the returned or thrown
result, the wizard state left in the session (`none` = cleared), and
whether the external submission service was invoked. -/
structure ReviewActionOutcome where
  result : ActionResult
  session : Option ApplyState
  serviceCalled : Bool
deriving DecidableEq, Repr

/-- The `action` of `apply/$id/adult/review-information.tsx`.
`state` is the state returned by `loadApplyAdultStateForReview`;
`serviceResult` is what `benefitApplicationService.submitApplication`
would produce when invoked (a confirmation code, or a thrown error);
`now` is `new UTCDate().toISOString()`. -/
def adultReviewInformationAction (state : ApplyState)
    (expectedCsrfToken submittedCsrfToken : String) (actionValue : String)
    (hCaptchaEnabled hCaptchaOk : Bool)
    (serviceResult : Except String String) (now : String) : ReviewActionOutcome :=
  if expectedCsrfToken ≠ submittedCsrfToken then
    ⟨.badRequest 400, some state, false⟩
  else
    match parseFormAction actionValue with
    | none => ⟨.invalidFormAction, some state, false⟩
    | some .back =>
        ⟨.redirect .adultFederalProvincialTerritorialBenefits,
          some (saveApplyState state { editMode := some false }), false⟩
    | some .submit =>
        if hCaptchaEnabled && !hCaptchaOk then
          ⟨.redirect .unableToProcessRequest, clearApplyState (some state), false⟩
        else
          match serviceResult with
          | .error e => ⟨.serviceFailure e, some state, true⟩
          | .ok confirmationCode =>
              ⟨.redirect .adultConfirmation,
                some (saveApplyState state
                  { submissionInfo := some ⟨confirmationCode, now⟩ }), true⟩

/-- The `action` of `apply/$id/child/review-child-information.tsx`.  The
CAPTCHA verification there runs before the `_action` parse, and no
external submission happens on this page. -/
def childReviewChildInformationAction (state : ApplyState)
    (expectedCsrfToken submittedCsrfToken : String)
    (hCaptchaEnabled hCaptchaOk : Bool) (actionValue : String) :
    ActionResult × Option ApplyState :=
  if expectedCsrfToken ≠ submittedCsrfToken then
    (.badRequest 400, some state)
  else if hCaptchaEnabled && !hCaptchaOk then
    (.redirect .unableToProcessRequest, clearApplyState (some state))
  else
    match parseFormAction actionValue with
    | none => (.invalidFormAction, some state)
    | some .back =>
        (.redirect .childCommunicationPreference,
          some (saveApplyState state { editMode := some false }))
    | some .submit =>
        (.redirect .childReviewAdultInformation,
          some (saveApplyState state {}))

/-- JavaScript truthiness of an optional string (`undefined` and `''` are
falsy). -/
def isTruthy : Option String → Bool
  | none => false
  | some s => s ≠ ""

/-- The `action` of `apply/$id/child/contact-information.tsx`, from the
CSRF check on.  `parsedDataResult` is the zod `safeParse` outcome of the
submitted form data; `emailMethodId` is `COMMUNICATION_METHOD_EMAIL_ID`.
Returns the result and the wizard state left in the session. -/
def childContactInformationAction (state : ApplyState)
    (expectedCsrfToken submittedCsrfToken : String)
    (parsedDataResult : Except Unit ContactInformationState)
    (emailMethodId : String) : ActionResult × ApplyState :=
  if expectedCsrfToken ≠ submittedCsrfToken then
    (.badRequest 400, state)
  else
    match parsedDataResult with
    | .error _ => (.validationErrors, state)
    | .ok data =>
        let updatedData :=
          if data.copyMailingAddress then
            { data with
              homeAddress := some data.mailingAddress
              homeApartment := data.mailingApartment
              homeCountry := some data.mailingCountry
              homeProvince := data.mailingProvince
              homeCity := some data.mailingCity
              homePostalCode := data.mailingPostalCode }
          else data
        let afterContactSave := saveApplyState state { contactInformation := some updatedData }
        let afterEmailSync :=
          match updatedData.email, state.communicationPreferences with
          | some e, some cp =>
              if e ≠ "" ∧ cp.preferredMethod = emailMethodId then
                saveApplyState afterContactSave
                  { communicationPreferences := some { cp with email := some e } }
              else afterContactSave
          | _, _ => afterContactSave
        let target :=
          if state.editMode then RouteId.childReviewAdultInformation
          else RouteId.childCommunicationPreference
        (.redirect target, afterEmailSync)

/-! Section: Subscription confirmation-code verification
(mock handler `POST /v1/codes/verify` in `src/unnamed/part_003`) -/

/-- One row of the mocked `subscriptionConfirmationCode` table.  Dates are
timestamps (JavaScript `Date` comparisons are numeric). -/
structure SubscriptionConfirmationCode where
  email : String
  confirmationCode : String
  createdDate : Nat
  expiryDate : Nat
deriving DecidableEq, Repr

/-- The `confirmCodeStatus` values returned by the handler. -/
inductive ConfirmCodeStatus
  | noCode
  | valid
  | expired
  | mismatch
deriving DecidableEq, Repr

/-- `db.subscriptionConfirmationCode.findMany({where: {email}})`. -/
def emailCodes (db : List SubscriptionConfirmationCode) (email : String) :
    List SubscriptionConfirmationCode :=
  db.filter fun c => c.email == email

/-- `entities.reduce((prev, current) => prev.createdDate > current.createdDate ? prev : current)`:
a `reduce` with no initial value folds the tail with the head as seed. -/
def latestConfirmCode (a : SubscriptionConfirmationCode)
    (l : List SubscriptionConfirmationCode) : SubscriptionConfirmationCode :=
  l.foldl (fun prev current => if prev.createdDate > current.createdDate then prev else current) a

/-- The verify handler: look up the codes stored for the email, take the
most recently created one, and compare strictly against `timeEntered`. -/
def verifyConfirmationCode (db : List SubscriptionConfirmationCode)
    (email confirmationCode : String) (timeEntered : Nat) : ConfirmCodeStatus :=
  match emailCodes db email with
  | [] => .noCode
  | a :: l =>
      let latest := latestConfirmCode a l
      if latest.confirmationCode = confirmationCode ∧ timeEntered < latest.expiryDate then
        .valid
      else if latest.confirmationCode = confirmationCode ∧ timeEntered > latest.expiryDate then
        .expired
      else
        .mismatch

/-! Section: A uniform per-step view of the state, for the merge claims -/

/-- The step keys of the state record that `saveApplyState` can update. -/
inductive StepKey
  | typeOfApplication
  | taxFiling2023
  | dateOfBirth
  | applicantInformation
  | partnerInformation
  | contactInformation
  | communicationPreferences
  | dentalInsurance
  | dentalBenefits
  | submissionInfo
  | editMode
deriving DecidableEq, Fintype, Repr

/-- The payload stored under a step key. -/
inductive StepValue
  | typeOf (v : TypeOfApplication)
  | flag (v : Bool)
  | date (v : String)
  | applicant (v : ApplicantInformationState)
  | partner (v : PartnerInformationState)
  | contact (v : ContactInformationState)
  | comm (v : CommunicationPreferencesState)
  | benefits (v : DentalBenefitsState)
  | submission (v : SubmissionInfo)
deriving DecidableEq, Repr

/-- The field stored in a wizard state under a step key (`editMode` is a
plain boolean, hence always present). -/
def ApplyState.getField (s : ApplyState) : StepKey → Option StepValue
  | .typeOfApplication => s.typeOfApplication.map .typeOf
  | .taxFiling2023 => s.taxFiling2023.map .flag
  | .dateOfBirth => s.dateOfBirth.map .date
  | .applicantInformation => s.applicantInformation.map .applicant
  | .partnerInformation => s.partnerInformation.map .partner
  | .contactInformation => s.contactInformation.map .contact
  | .communicationPreferences => s.communicationPreferences.map .comm
  | .dentalInsurance => s.dentalInsurance.map .flag
  | .dentalBenefits => s.dentalBenefits.map .benefits
  | .submissionInfo => s.submissionInfo.map .submission
  | .editMode => some (.flag s.editMode)

/-- The field submitted by an update under a step key. -/
def ApplyStateUpdate.getField (u : ApplyStateUpdate) : StepKey → Option StepValue
  | .typeOfApplication => u.typeOfApplication.map .typeOf
  | .taxFiling2023 => u.taxFiling2023.map .flag
  | .dateOfBirth => u.dateOfBirth.map .date
  | .applicantInformation => u.applicantInformation.map .applicant
  | .partnerInformation => u.partnerInformation.map .partner
  | .contactInformation => u.contactInformation.map .contact
  | .communicationPreferences => u.communicationPreferences.map .comm
  | .dentalInsurance => u.dentalInsurance.map .flag
  | .dentalBenefits => u.dentalBenefits.map .benefits
  | .submissionInfo => u.submissionInfo.map .submission
  | .editMode => u.editMode.map .flag

/-- Two updates touch disjoint step keys. -/
def UpdateDisjoint (u v : ApplyStateUpdate) : Prop :=
  ∀ k : StepKey, u.getField k = none ∨ v.getField k = none

instance (u v : ApplyStateUpdate) : Decidable (UpdateDisjoint u v) := by
  unfold UpdateDisjoint
  infer_instance

/-- Union of a sequence of updates at a step key (well-defined when the
updates are pairwise disjoint). -/
def unionUpdates (us : List ApplyStateUpdate) (k : StepKey) : Option StepValue :=
  us.findSome? fun u => u.getField k

/-! Section: Interleaving model of the submission finalizer, for the
double-submit race (spec §5) -/

/-- Program counter of one finalizer invocation: load the state, check
`submissionInfo` (redirect away if already submitted), call the external
submission service, persist `submissionInfo`. -/
inductive FinalizerPc
  | start
  | loaded
  | called
  | finished
deriving DecidableEq, Repr

/-- One in-flight finalizer request: its control point, the
`submissionInfo` snapshot it loaded, and whether it has called the
external service. -/
structure FinalizerProc where
  pc : FinalizerPc
  snapshot : Option SubmissionInfo
  didCall : Bool
deriving DecidableEq, Repr

/-- Modelled from the spec: the shared session record and two concurrent
finalizer invocations (spec §5 describes the load / check / call-external /
persist granularity; the guard that redirects an already-submitted session
is the loader check of §4.2, whose adult-flow implementation
`loadApplyAdultStateForReview` is not under `src/`).  `store` is the
persisted `submissionInfo`, `calls` counts invocations of the external
submission service. -/
structure FinalizerSystem where
  store : Option SubmissionInfo
  calls : Nat
  proc1 : FinalizerProc
  proc2 : FinalizerProc
deriving DecidableEq, Repr

/-- One step of a single finalizer invocation, persisting `info` on
success: load snapshots the store; the check aborts when the snapshot has
a `submissionInfo`, else calls the external service; the final step
persists the new `submissionInfo`. -/
def stepProc (info : SubmissionInfo) (store : Option SubmissionInfo) (calls : Nat)
    (p : FinalizerProc) : Option SubmissionInfo × Nat × FinalizerProc :=
  match p.pc with
  | .start => (store, calls, { p with pc := .loaded, snapshot := store })
  | .loaded =>
      match p.snapshot with
      | some _ => (store, calls, { p with pc := .finished })
      | none => (store, calls + 1, { p with pc := .called, didCall := true })
  | .called => (some info, calls, { p with pc := .finished })
  | .finished => (store, calls, p)

/-- Scheduler step: `true` advances invocation 1, `false` invocation 2. -/
def finalizerStep (info1 info2 : SubmissionInfo) (b : Bool) (s : FinalizerSystem) :
    FinalizerSystem :=
  if b then
    match stepProc info1 s.store s.calls s.proc1 with
    | (store, calls, p) => { s with store := store, calls := calls, proc1 := p }
  else
    match stepProc info2 s.store s.calls s.proc2 with
    | (store, calls, p) => { s with store := store, calls := calls, proc2 := p }

/-- Run a schedule of interleaved steps. -/
def finalizerRun (info1 info2 : SubmissionInfo) (sched : List Bool) (s : FinalizerSystem) :
    FinalizerSystem :=
  sched.foldl (fun s b => finalizerStep info1 info2 b s) s

/-- Initial system: session complete but not yet submitted, no external
call made, both requests about to start. -/
def finalizerInit : FinalizerSystem :=
  ⟨none, 0, ⟨.start, none, false⟩, ⟨.start, none, false⟩⟩

/-- Invariant of the interleaved system: the call counter counts the
invocations that have called out, and any loaded-or-finished evidence of a
submission implies the store holds one. -/
def FinalizerInv (s : FinalizerSystem) : Prop :=
  s.calls = (if s.proc1.didCall then 1 else 0) + (if s.proc2.didCall then 1 else 0)
  ∧ (s.proc1.snapshot.isSome → s.store.isSome)
  ∧ (s.proc2.snapshot.isSome → s.store.isSome)
  ∧ (s.proc1.pc = .finished → s.store.isSome)
  ∧ (s.proc2.pc = .finished → s.store.isSome)
  ∧ ((s.proc1.pc = .start ∨ s.proc1.pc = .loaded) → s.proc1.didCall = false)
  ∧ ((s.proc2.pc = .start ∨ s.proc2.pc = .loaded) → s.proc2.didCall = false)

/-! Section: Concrete sample data used by the witnesses -/

/-- A contact-information payload. -/
def sampleContactInformation : ContactInformationState where
  phoneNumber := some "+1 613 555 0100"
  phoneNumberAlt := none
  email := some "jane@example.com"
  confirmEmail := some "jane@example.com"
  mailingAddress := "123 Main St"
  mailingApartment := none
  mailingCountry := "CAN"
  mailingProvince := some "ON"
  mailingCity := "Ottawa"
  mailingPostalCode := some "K1A 0B1"
  copyMailingAddress := true
  homeAddress := none
  homeApartment := none
  homeCountry := none
  homeProvince := none
  homeCity := none
  homePostalCode := none

/-- A communication-preferences payload choosing the email method. -/
def sampleCommunicationPreferences : CommunicationPreferencesState where
  preferredLanguage := "en"
  preferredMethod := "email"
  email := some "old@example.com"
  confirmEmail := some "old@example.com"

/-- A complete adult-child wizard state that has already been submitted. -/
def sampleCompleteState : ApplyState where
  id := "00000000-0000-0000-0000-000000000000"
  editMode := true
  typeOfApplication := some .adultChild
  taxFiling2023 := some true
  dateOfBirth := some "1985-03-04"
  applicantInformation := some ⟨"Jane", "Doe", "1", "800000002"⟩
  partnerInformation := none
  contactInformation := some sampleContactInformation
  communicationPreferences := some sampleCommunicationPreferences
  dentalInsurance := some false
  dentalBenefits := some ⟨false, none, false, none, none⟩
  submissionInfo := some ⟨"ABC123", "2024-05-01T00:00:00.000Z"⟩

/-- The sample state before submission (`submissionInfo` absent). -/
def sampleUnsubmittedState : ApplyState :=
  { sampleCompleteState with submissionInfo := none }

/-- The failing input of the review-validation claim: tax filing and date
of birth present, `applicantInformation` absent. -/
def stateMissingApplicantInformation : ApplyState :=
  { sampleUnsubmittedState with applicantInformation := none }

/-- A stored confirmation code for `user@example.com`, created at time 0,
expiring at time 5. -/
def sampleStoredCode : SubscriptionConfirmationCode :=
  ⟨"user@example.com", "0101", 0, 5⟩

/-- A step submission carrying only the contact-information payload. -/
def contactUpdate : ApplyStateUpdate :=
  { contactInformation := some sampleContactInformation }

/-- A step submission carrying only the communication-preferences payload. -/
def commPrefUpdate : ApplyStateUpdate :=
  { communicationPreferences := some sampleCommunicationPreferences }

/-! Section: Theorems -/

/-- C1: for every wizard state of the adult-child flow whose
`submissionInfo` is set, loading the state for a request whose path is not
the confirmation page throws a redirect to the confirmation page, and the
loaded state is never returned for rendering (the first conjunct holds for
every state whatsoever; a state of a different application type is
redirected to the type-application page by the guard that precedes this
check). -/
theorem submitted_state_redirects_to_confirmation (s : ApplyState) (pathname : String)
    (hsub : s.submissionInfo.isSome)
    (hpath : strEndsWith pathname (getPathById .adultChildConfirmation) = false) :
    (∀ st, loadApplyAdultChildState s pathname ≠ .ok st) ∧
      (s.typeOfApplication = some .adultChild →
        loadApplyAdultChildState s pathname = .error .adultChildConfirmation) := by
  unfold loadApplyAdultChildState
  constructor
  · intro st
    by_cases hty : s.typeOfApplication = some .adultChild
    · simp [hty, hsub, hpath]
    · simp [hty]
  · intro hty
    simp [hty, hsub, hpath]

/-- Witness for C1 at a concrete submitted state and a non-confirmation
path. -/
theorem submitted_state_redirects_to_confirmation_w :
    loadApplyAdultChildState sampleCompleteState "/apply/adult-child/tax-filing" =
      .error .adultChildConfirmation :=
  (submitted_state_redirects_to_confirmation sampleCompleteState
    "/apply/adult-child/tax-filing" (by decide) (by decide)).2 (by decide)

/-- C4 (code bug): the source comments out the
`throw redirect(termsAndConditionsRouteUrl)` for an unsubmitted session
requesting the confirmation page (a TODO says to re-add it), so the loader
returns the state for rendering instead of redirecting to the first step. -/
theorem unsubmitted_confirmation_request_not_redirected :
    loadApplyAdultChildState sampleUnsubmittedState (getPathById .adultChildConfirmation) =
      .ok sampleUnsubmittedState := by
  rfl

/-- C5 (code bug): the review validation's `applicantInformation` check is
commented out in the source behind a TODO, so a state with tax filing and
date of birth present but `applicantInformation` absent passes validation
without any redirect, where the claim expects a redirect to the
applicant-information step. -/
theorem review_validation_skips_applicant_information :
    validateApplyAdultChildStateForReview stateMissingApplicantInformation = none := by
  decide

/-- C2: when the CSRF token matches, the form action is `submit`, CAPTCHA
does not reject, and the submission service returns a confirmation code,
the adult review action persists `submissionInfo = {confirmationCode,
submittedOn: now}` into the wizard state and redirects to the confirmation
page. -/
theorem review_submit_success_persists_submission (state : ApplyState)
    (tok code now : String) (hE hOk : Bool)
    (hcap : (hE && !hOk) = false) :
    adultReviewInformationAction state tok tok "submit" hE hOk (.ok code) now =
      ⟨.redirect .adultConfirmation,
        some (saveApplyState state { submissionInfo := some ⟨code, now⟩ }), true⟩
    ∧ (saveApplyState state { submissionInfo := some ⟨code, now⟩ }).submissionInfo =
        some ⟨code, now⟩ := by
  constructor
  · unfold adultReviewInformationAction
    rw [if_neg (by simp)]
    rw [show parseFormAction "submit" = some FormAction.submit from rfl]
    simp [hcap]
  · rfl

/-- Witness for C2 on a concrete complete, not-yet-submitted state. -/
theorem review_submit_success_persists_submission_w :
    adultReviewInformationAction sampleUnsubmittedState "csrf" "csrf" "submit" false true
        (.ok "ABC123") "2024-06-01T00:00:00.000Z" =
      ⟨.redirect .adultConfirmation,
        some (saveApplyState sampleUnsubmittedState
          { submissionInfo := some ⟨"ABC123", "2024-06-01T00:00:00.000Z"⟩ }), true⟩
    ∧ (saveApplyState sampleUnsubmittedState
        { submissionInfo := some ⟨"ABC123", "2024-06-01T00:00:00.000Z"⟩ }).submissionInfo =
        some ⟨"ABC123", "2024-06-01T00:00:00.000Z"⟩ :=
  review_submit_success_persists_submission sampleUnsubmittedState "csrf" "ABC123"
    "2024-06-01T00:00:00.000Z" false true (by decide)

/-- C3: when the submission service throws, the adult review action
surfaces the failure to the caller and leaves the wizard state in the
session exactly as it was (no `submissionInfo` is persisted, the state
stays editable). -/
theorem review_submit_failure_leaves_state_unchanged (state : ApplyState)
    (tok e now : String) (hE hOk : Bool)
    (hcap : (hE && !hOk) = false) :
    adultReviewInformationAction state tok tok "submit" hE hOk (.error e) now =
      ⟨.serviceFailure e, some state, true⟩ := by
  unfold adultReviewInformationAction
  rw [if_neg (by simp)]
  rw [show parseFormAction "submit" = some FormAction.submit from rfl]
  simp [hcap]

/-- Witness for C3 on a concrete complete, not-yet-submitted state. -/
theorem review_submit_failure_leaves_state_unchanged_w :
    adultReviewInformationAction sampleUnsubmittedState "csrf" "csrf" "submit" false true
        (.error "ECONNREFUSED") "2024-06-01T00:00:00.000Z" =
      ⟨.serviceFailure "ECONNREFUSED", some sampleUnsubmittedState, true⟩ :=
  review_submit_failure_leaves_state_unchanged sampleUnsubmittedState "csrf" "ECONNREFUSED"
    "2024-06-01T00:00:00.000Z" false true (by decide)

/-- C8: with the CAPTCHA feature enabled and verification failing, the
adult review submit action and the child review action both clear the
whole wizard state and redirect to the unable-to-process page; the
external submission service is never invoked. -/
theorem captcha_failure_clears_state_and_redirects (s1 s2 : ApplyState)
    (tok1 tok2 a now : String) (serviceResult : Except String String) :
    adultReviewInformationAction s1 tok1 tok1 "submit" true false serviceResult now =
      ⟨.redirect .unableToProcessRequest, none, false⟩
    ∧ childReviewChildInformationAction s2 tok2 tok2 true false a =
      (.redirect .unableToProcessRequest, none) := by
  constructor
  · unfold adultReviewInformationAction
    rw [if_neg (by simp)]
    rw [show parseFormAction "submit" = some FormAction.submit from rfl]
    simp [clearApplyState]
  · unfold childReviewChildInformationAction
    rw [if_neg (by simp)]
    simp [clearApplyState]

/-- Witness for C8 at a concrete state and CAPTCHA failure. -/
theorem captcha_failure_clears_state_and_redirects_w :
    adultReviewInformationAction sampleUnsubmittedState "csrf" "csrf" "submit" true false
        (.ok "ABC123") "2024-06-01T00:00:00.000Z" =
      ⟨.redirect .unableToProcessRequest, none, false⟩
    ∧ childReviewChildInformationAction sampleUnsubmittedState "csrf" "csrf" true false
        "submit" = (.redirect .unableToProcessRequest, none) :=
  captcha_failure_clears_state_and_redirects sampleUnsubmittedState sampleUnsubmittedState
    "csrf" "csrf" "submit" "2024-06-01T00:00:00.000Z" (.ok "ABC123")

/-- Helper: the communication-preferences payload left by a successful
contact-information submission, as a function of the submitted email and
the stored preferences. -/
theorem childContact_ok_comm (state : ApplyState) (tok mid : String)
    (data : ContactInformationState) :
    (childContactInformationAction state tok tok (.ok data) mid).2.communicationPreferences =
      match data.email, state.communicationPreferences with
      | some e, some cp =>
          if e ≠ "" ∧ cp.preferredMethod = mid then some { cp with email := some e }
          else some cp
      | _, _ => state.communicationPreferences := by
  cases hcm : data.copyMailingAddress <;>
    rcases hemail : data.email with _ | e <;>
    rcases hcp : state.communicationPreferences with _ | cp <;>
    simp [childContactInformationAction, hcm, hemail, hcp, saveApplyState, mergeField]
  all_goals split <;> rfl

/-- C10: on a successful child-flow contact-information submission whose
data carries a (truthy) email while the stored communication preferences
use the email method, the action additionally overwrites
`communicationPreferences.email` with the submitted email; on every other
input the communication-preferences payload is untouched by this step. -/
theorem contact_information_syncs_comm_pref_email (state : ApplyState)
    (tok mid : String) (pd : Except Unit ContactInformationState) :
    (∀ data cp e, pd = .ok data → data.email = some e → e ≠ "" →
      state.communicationPreferences = some cp → cp.preferredMethod = mid →
      (childContactInformationAction state tok tok pd mid).2.communicationPreferences =
        some { cp with email := some e })
    ∧ (∀ data, pd = .ok data →
      (isTruthy data.email = false ∨
        ∀ cp, state.communicationPreferences = some cp → cp.preferredMethod ≠ mid) →
      (childContactInformationAction state tok tok pd mid).2.communicationPreferences =
        state.communicationPreferences)
    ∧ (pd = .error () →
      (childContactInformationAction state tok tok pd mid).2 = state) := by
  refine ⟨?_, ?_, ?_⟩
  · intro data cp e hpd hemail hne hcp hmid
    subst hpd
    rw [childContact_ok_comm]
    simp [hemail, hcp, hne, hmid]
  · intro data hpd hother
    subst hpd
    rw [childContact_ok_comm]
    rcases hemail : data.email with _ | e <;>
      rcases hcp : state.communicationPreferences with _ | cp
    · rfl
    · rfl
    · rfl
    · show (if e ≠ "" ∧ cp.preferredMethod = mid then some { cp with email := some e }
        else some cp) = some cp
      rw [if_neg]
      rintro ⟨h1, h2⟩
      rcases hother with ho | ho
      · rw [hemail] at ho
        simp [isTruthy] at ho
        exact h1 ho
      · exact ho cp hcp h2
  · intro hpd
    subst hpd
    simp [childContactInformationAction]

/-- Witness for C10: the submitted email replaces the previously stored
communication-preferences email. -/
theorem contact_information_syncs_comm_pref_email_w :
    (childContactInformationAction sampleUnsubmittedState "csrf" "csrf"
        (.ok sampleContactInformation) "email").2.communicationPreferences =
      some { sampleCommunicationPreferences with email := some "jane@example.com" } :=
  (contact_information_syncs_comm_pref_email sampleUnsubmittedState "csrf" "email"
      (.ok sampleContactInformation)).1
    sampleContactInformation sampleCommunicationPreferences "jane@example.com"
    rfl rfl (by decide) rfl rfl

/-- Helper: `mergeField` commutes with mapping a payload constructor. -/
theorem mergeField_map {α β : Type} (g : α → β) (a b : Option α) :
    (mergeField a b).map g = mergeField (a.map g) (b.map g) := by
  cases a <;> simp [mergeField]

/-- Helper: two merges commute when at least one side is absent. -/
theorem mergeField_comm {α : Type} {a b : Option α} (h : a = none ∨ b = none) (c : Option α) :
    mergeField a (mergeField b c) = mergeField b (mergeField a c) := by
  rcases h with rfl | rfl
  · cases b <;> simp [mergeField]
  · cases a <;> simp [mergeField]

/-- Helper: the per-key view of one save is the key-present-overrides
merge of the update and the state. -/
theorem getField_save (s : ApplyState) (u : ApplyStateUpdate) (k : StepKey) :
    (saveApplyState s u).getField k = mergeField (u.getField k) (s.getField k) := by
  cases k <;>
    simp [saveApplyState, ApplyState.getField, ApplyStateUpdate.getField, mergeField_map]
  cases u.editMode <;> simp [mergeField]

/-- Helper: the union of updates that all miss a key misses the key. -/
theorem unionUpdates_eq_none (us : List ApplyStateUpdate) (k : StepKey)
    (h : ∀ u ∈ us, u.getField k = none) : unionUpdates us k = none := by
  induction us with
  | nil => rfl
  | cons u us ih =>
      have hu := h u (List.mem_cons_self u us)
      simp [unionUpdates, List.findSome?_cons, hu]
      intro v hv
      exact h v (List.mem_cons_of_mem u hv)

/-- Helper: the union over a cons of updates. -/
theorem unionUpdates_cons (u : ApplyStateUpdate) (us : List ApplyStateUpdate) (k : StepKey) :
    unionUpdates (u :: us) k = mergeField (u.getField k) (unionUpdates us k) := by
  cases hug : u.getField k <;> simp [unionUpdates, List.findSome?_cons, hug, mergeField]

/-- Helper: replaying pairwise-disjoint step submissions leaves, at each
key, the union of the submitted fields over the initial state. -/
theorem getField_foldl_save (s : ApplyState) (us : List ApplyStateUpdate) (k : StepKey)
    (h : List.Pairwise UpdateDisjoint us) :
    (us.foldl saveApplyState s).getField k =
      mergeField (unionUpdates us k) (s.getField k) := by
  induction us generalizing s with
  | nil => simp [unionUpdates, mergeField]
  | cons u us ih =>
      rw [List.pairwise_cons] at h
      obtain ⟨hu, hus⟩ := h
      rw [List.foldl_cons, ih (saveApplyState s u) hus, getField_save, unionUpdates_cons]
      have hdis : u.getField k = none ∨ unionUpdates us k = none := by
        by_cases hg : u.getField k = none
        · exact Or.inl hg
        · refine Or.inr (unionUpdates_eq_none us k fun v hv => ?_)
          rcases hu v hv k with h1 | h1
          · exact absurd h1 hg
          · exact h1
      rcases hdis with hd | hd <;> rw [hd]
      · cases unionUpdates us k <;> simp [mergeField]
      · cases u.getField k <;> simp [mergeField]

/-- Helper: saving two updates over disjoint step keys commutes. -/
theorem saveApplyState_comm (s : ApplyState) (u v : ApplyStateUpdate)
    (h : UpdateDisjoint u v) :
    saveApplyState (saveApplyState s u) v = saveApplyState (saveApplyState s v) u := by
  have ext : ∀ {α β : Type} (g : α → β) (x y : Option α),
      (x.map g = none ∨ y.map g = none) → y = none ∨ x = none := by
    intro α β g x y hxy
    rcases hxy with hx | hx
    · exact Or.inr (Option.map_eq_none'.mp hx)
    · exact Or.inl (Option.map_eq_none'.mp hx)
  have hed : u.editMode = none ∨ v.editMode = none := by
    rcases h .editMode with h1 | h1
    · exact Or.inl (Option.map_eq_none'.mp h1)
    · exact Or.inr (Option.map_eq_none'.mp h1)
  simp only [saveApplyState, ApplyState.mk.injEq]
  refine ⟨trivial, ?_, ?_, ?_, ?_, ?_, ?_, ?_, ?_, ?_, ?_, ?_⟩
  · rcases hed with hd | hd <;> rw [hd] <;> cases u.editMode <;> cases v.editMode <;>
      simp [Option.getD]
  · exact mergeField_comm (ext _ _ _ (h .typeOfApplication)) _
  · exact mergeField_comm (ext _ _ _ (h .taxFiling2023)) _
  · exact mergeField_comm (ext _ _ _ (h .dateOfBirth)) _
  · exact mergeField_comm (ext _ _ _ (h .applicantInformation)) _
  · exact mergeField_comm (ext _ _ _ (h .partnerInformation)) _
  · exact mergeField_comm (ext _ _ _ (h .contactInformation)) _
  · exact mergeField_comm (ext _ _ _ (h .communicationPreferences)) _
  · exact mergeField_comm (ext _ _ _ (h .dentalInsurance)) _
  · exact mergeField_comm (ext _ _ _ (h .dentalBenefits)) _
  · exact mergeField_comm (ext _ _ _ (h .submissionInfo)) _

/-- C6: a sequence of step submissions over pairwise-disjoint step keys
leaves, at every key, the union of the submitted partial payloads over the
initial state; one save replaces the submitted step's entry wholly, leaves
every untouched key unchanged, never removes a previously-set field, and
commutes with a save over disjoint keys. -/
theorem save_merge_union_disjoint (s : ApplyState) (us : List ApplyStateUpdate)
    (u v : ApplyStateUpdate) (k : StepKey) (w : StepValue) :
    (List.Pairwise UpdateDisjoint us →
      (us.foldl saveApplyState s).getField k = mergeField (unionUpdates us k) (s.getField k))
    ∧ (UpdateDisjoint u v →
      saveApplyState (saveApplyState s u) v = saveApplyState (saveApplyState s v) u)
    ∧ (u.getField k = some w → (saveApplyState s u).getField k = some w)
    ∧ (u.getField k = none → (saveApplyState s u).getField k = s.getField k)
    ∧ (s.getField k = some w → ((saveApplyState s u).getField k).isSome = true) := by
  refine ⟨fun h => getField_foldl_save s us k h, fun h => saveApplyState_comm s u v h,
    ?_, ?_, ?_⟩
  · intro h
    rw [getField_save, h]
    rfl
  · intro h
    rw [getField_save, h]
    rfl
  · intro h
    rw [getField_save, h]
    cases u.getField k <;> simp [mergeField]

/-- Witness for C6: two concrete disjoint step submissions. -/
theorem save_merge_union_disjoint_w :
    ([contactUpdate, commPrefUpdate].foldl saveApplyState sampleUnsubmittedState).getField
        .contactInformation =
      mergeField (unionUpdates [contactUpdate, commPrefUpdate] .contactInformation)
        (sampleUnsubmittedState.getField .contactInformation)
    ∧ saveApplyState (saveApplyState sampleUnsubmittedState contactUpdate) commPrefUpdate =
        saveApplyState (saveApplyState sampleUnsubmittedState commPrefUpdate) contactUpdate :=
  ⟨(save_merge_union_disjoint sampleUnsubmittedState [contactUpdate, commPrefUpdate]
      contactUpdate commPrefUpdate .contactInformation
      (.contact sampleContactInformation)).1
    (by
      refine List.Pairwise.cons (fun v hv => ?_) (List.pairwise_singleton _ _)
      rw [List.mem_singleton] at hv
      subst hv
      decide),
   (save_merge_union_disjoint sampleUnsubmittedState [contactUpdate, commPrefUpdate]
      contactUpdate commPrefUpdate .contactInformation
      (.contact sampleContactInformation)).2.1 (by decide)⟩

/-- Helper: the `reduce` over the stored codes returns the strictly most
recently created entry. -/
theorem latestConfirmCode_eq_max (a : SubscriptionConfirmationCode)
    (l : List SubscriptionConfirmationCode) (e : SubscriptionConfirmationCode)
    (hm : e ∈ a :: l)
    (hmax : ∀ x ∈ a :: l, x ≠ e → x.createdDate < e.createdDate) :
    latestConfirmCode a l = e := by
  induction l generalizing a with
  | nil =>
      rw [List.mem_singleton] at hm
      rw [latestConfirmCode, List.foldl_nil, hm]
  | cons b l ih =>
      have hstep : latestConfirmCode a (b :: l) =
          latestConfirmCode (if a.createdDate > b.createdDate then a else b) l := by
        rw [latestConfirmCode, latestConfirmCode, List.foldl_cons]
      rw [hstep]
      have hhab : (if a.createdDate > b.createdDate then a else b) = a ∨
          (if a.createdDate > b.createdDate then a else b) = b := by
        split
        · exact Or.inl rfl
        · exact Or.inr rfl
      have hm' : e ∈ (if a.createdDate > b.createdDate then a else b) :: l := by
        rcases List.mem_cons.mp hm with he | he
        · refine List.mem_cons.mpr (Or.inl ?_)
          split
          · exact he
          · rename_i hab
            by_cases hbe : b = e
            · exact hbe.symm
            · have hlt := hmax b (by simp) hbe
              rw [he] at hlt
              omega
        · rcases List.mem_cons.mp he with he | he
          · refine List.mem_cons.mpr (Or.inl ?_)
            split
            · rename_i hab
              by_cases hae : a = e
              · exact hae.symm
              · have hlt := hmax a (by simp) hae
                rw [he] at hlt
                omega
            · exact he
          · exact List.mem_cons_of_mem _ he
      have hmax' : ∀ x ∈ (if a.createdDate > b.createdDate then a else b) :: l,
          x ≠ e → x.createdDate < e.createdDate := by
        intro x hx hne
        rcases List.mem_cons.mp hx with hx | hx
        · rcases hhab with hh | hh
          · rw [hx, hh]
            exact hmax a (by simp) (hh ▸ hx ▸ hne)
          · rw [hx, hh]
            exact hmax b (by simp) (hh ▸ hx ▸ hne)
        · exact hmax x (by simp [hx]) hne
      exact ih _ hm' hmax'

/-- Counterexample for C9: a request at exactly the expiry instant of a
matching code is reported as a mismatch, where the claim (a matching code
whose expiry window has elapsed) expects it to be reported as expired. -/
theorem verify_code_at_expiry_instant_mismatch :
    verifyConfirmationCode [sampleStoredCode] "user@example.com" "0101" 5 =
      ConfirmCodeStatus.mismatch
    ∧ verifyConfirmationCode [sampleStoredCode] "user@example.com" "0101" 5 ≠
      ConfirmCodeStatus.expired := by
  decide

/-- C9 (amended): with `e` the strictly most recently created code stored
for the email, verification reports valid exactly when the entered code
matches `e` and the time is strictly before `e`'s expiry; a matching code
strictly after expiry is reported expired; a matching code at exactly the
expiry instant, or a non-matching code, is reported a mismatch; an email
with no stored codes reports no code. -/
theorem verify_code_characterization (db : List SubscriptionConfirmationCode)
    (email code : String) (t : Nat) :
    (emailCodes db email = [] → verifyConfirmationCode db email code t = .noCode)
    ∧ (∀ e, e ∈ emailCodes db email →
        (∀ x, x ∈ emailCodes db email → x ≠ e → x.createdDate < e.createdDate) →
        ((verifyConfirmationCode db email code t = .valid ↔
            (e.confirmationCode = code ∧ t < e.expiryDate))
          ∧ (e.confirmationCode = code → e.expiryDate < t →
              verifyConfirmationCode db email code t = .expired)
          ∧ (e.confirmationCode ≠ code → verifyConfirmationCode db email code t = .mismatch)
          ∧ (e.confirmationCode = code → t = e.expiryDate →
              verifyConfirmationCode db email code t = .mismatch))) := by
  constructor
  · intro h
    unfold verifyConfirmationCode
    rw [h]
  · intro e hm hmax
    rcases hfe : emailCodes db email with _ | ⟨a, l⟩
    · rw [hfe] at hm
      simp at hm
    · rw [hfe] at hm hmax
      have hl : latestConfirmCode a l = e := latestConfirmCode_eq_max a l e hm hmax
      unfold verifyConfirmationCode
      rw [hfe]
      simp only [hl]
      refine ⟨?_, ?_, ?_, ?_⟩
      · constructor
        · intro hv
          by_cases hc : e.confirmationCode = code ∧ t < e.expiryDate
          · exact hc
          · rw [if_neg hc] at hv
            split at hv <;> exact absurd hv (by decide)
        · intro hc
          rw [if_pos hc]
      · intro hc hlt
        rw [if_neg (by omega), if_pos ⟨hc, hlt⟩]
      · intro hc
        rw [if_neg (by tauto), if_neg (by tauto)]
      · intro hc ht
        rw [if_neg (by omega), if_neg (by omega)]

/-- Witness for C9 at a table holding an older and a newer code for the
same email: the newer code verifies as valid inside its expiry window. -/
theorem verify_code_characterization_w :
    verifyConfirmationCode
        [⟨"x@example.com", "1111", 0, 10⟩, ⟨"x@example.com", "2222", 5, 20⟩]
        "x@example.com" "2222" 7 = .valid :=
  ((verify_code_characterization
      [⟨"x@example.com", "1111", 0, 10⟩, ⟨"x@example.com", "2222", 5, 20⟩]
      "x@example.com" "2222" 7).2
    ⟨"x@example.com", "2222", 5, 20⟩ (by decide) (by decide)).1.mpr (by decide)

/-- Helper: the finalizer invariant holds initially. -/
theorem finalizerInv_init : FinalizerInv finalizerInit := by
  refine ⟨rfl, ?_, ?_, ?_, ?_, ?_, ?_⟩ <;> intro h <;> simp [finalizerInit] at h ⊢

/-- Helper: every interleaved step preserves the finalizer invariant. -/
theorem finalizerInv_step (info1 info2 : SubmissionInfo) (b : Bool) (s : FinalizerSystem)
    (h : FinalizerInv s) : FinalizerInv (finalizerStep info1 info2 b s) := by
  obtain ⟨store, calls, ⟨pc1, sn1, d1⟩, ⟨pc2, sn2, d2⟩⟩ := s
  obtain ⟨hc, hs1, hs2, hf1, hf2, hd1, hd2⟩ := h
  simp only [FinalizerInv] at *
  cases b
  · cases pc2 <;> [skip; cases sn2; skip; skip] <;>
      simp_all [finalizerStep, stepProc, FinalizerInv]
  · cases pc1 <;> [skip; cases sn1; skip; skip] <;>
      simp_all [finalizerStep, stepProc, FinalizerInv] <;>
      omega

/-- Helper: the invariant holds after running any schedule from the
initial system. -/
theorem finalizerInv_run (info1 info2 : SubmissionInfo) (sched : List Bool) :
    FinalizerInv (finalizerRun info1 info2 sched finalizerInit) := by
  suffices h : ∀ s, FinalizerInv s → FinalizerInv (finalizerRun info1 info2 sched s) from
    h finalizerInit finalizerInv_init
  induction sched with
  | nil => exact fun s hs => hs
  | cons b bs ih =>
      intro s hs
      exact ih _ (finalizerInv_step info1 info2 b s hs)

/-- Counterexample for C7: interleaving two finalizer invocations so that
both load the not-yet-submitted state before either persists makes both
invocations call the external submission service — two calls are observed,
refuting the at-most-one-call property claimed of the code. -/
theorem concurrent_finalizers_double_submit :
    (finalizerRun ⟨"AAA111", "t1"⟩ ⟨"BBB222", "t2"⟩ [true, false, true, false, true, false]
        finalizerInit).proc1.pc = .finished
    ∧ (finalizerRun ⟨"AAA111", "t1"⟩ ⟨"BBB222", "t2"⟩ [true, false, true, false, true, false]
        finalizerInit).proc2.pc = .finished
    ∧ ¬ (finalizerRun ⟨"AAA111", "t1"⟩ ⟨"BBB222", "t2"⟩ [true, false, true, false, true, false]
        finalizerInit).calls ≤ 1 := by
  decide

/-- C7 (amended): however two concurrent finalizer invocations interleave,
once both have finished exactly one `submissionInfo` value is persisted
(the last write wins), and the external submission service observes at
most two — not at most one — calls; the check-then-set is not atomic. -/
theorem concurrent_finalizers_persist_once_at_most_two_calls
    (info1 info2 : SubmissionInfo) (sched : List Bool)
    (h1 : (finalizerRun info1 info2 sched finalizerInit).proc1.pc = .finished)
    (_h2 : (finalizerRun info1 info2 sched finalizerInit).proc2.pc = .finished) :
    (finalizerRun info1 info2 sched finalizerInit).store.isSome = true
    ∧ (finalizerRun info1 info2 sched finalizerInit).calls ≤ 2 := by
  obtain ⟨hc, hs1, hs2, hf1, hf2, hd1, hd2⟩ := finalizerInv_run info1 info2 sched
  refine ⟨hf1 h1, ?_⟩
  rw [hc]
  split <;> split <;> omega

/-- Witness for C7 on a sequential schedule: the first invocation runs to
completion, the second then loads the submitted state and aborts. -/
theorem concurrent_finalizers_persist_once_at_most_two_calls_w :
    (finalizerRun ⟨"AAA111", "t1"⟩ ⟨"BBB222", "t2"⟩ [true, true, true, false, false]
        finalizerInit).store.isSome = true
    ∧ (finalizerRun ⟨"AAA111", "t1"⟩ ⟨"BBB222", "t2"⟩ [true, true, true, false, false]
        finalizerInit).calls ≤ 2 :=
  concurrent_finalizers_persist_once_at_most_two_calls ⟨"AAA111", "t1"⟩ ⟨"BBB222", "t2"⟩
    [true, true, true, false, false] (by decide) (by decide)

end CDCP
